import Mathlib

/-!
Verification development for the Expense Manager repository
(FastAPI backend + React/TypeScript frontend).

Monetary amounts are JavaScript / Python numbers in the source; they are
modelled here as rationals (ℚ), with the one non-finite corner (division by
zero producing Infinity or NaN) modelled explicitly as `Option.none`.

The backend Python sources (routes/, services/, utils/db.py) are not part of
the checked-in tree; where a claim depends on them, the corresponding
definition is modelled from the specification text and marked as such in its
doc comment.  All frontend definitions are translated directly from the
TypeScript sources under frontend/src.
-/

namespace ExpenseManager

/-! ### Ledger Store and Budget Tracker (modelled from the spec) -/

/-- Modelled from the spec: per-user ledger state kept by the Ledger Store and
Budget Tracker (backend `routes/expense_transactions.py` and `utils/db.py` are
not in the tree).  An expense is recorded as its id together with its amount;
`total_spent` is the derived cache maintained by the Budget Tracker;
`nextId` supplies fresh ids. -/
structure UserState where
  expenses : List (Nat × ℚ)
  total_spent : ℚ
  nextId : Nat

/-- Sum of the amounts of a list of (id, amount) expense records. -/
def sumAmounts (l : List (Nat × ℚ)) : ℚ :=
  (l.map Prod.snd).sum

/-- Modelled from the spec: a newly registered user starts with no expenses and
`total_spent = 0` (register response in API_DOCUMENTATION.md shows
`"total_spent": 0.0`). -/
def newUser : UserState :=
  { expenses := [], total_spent := 0, nextId := 0 }

/-- Modelled from the spec: the committed mutations of a user ledger that
affect `total_spent` — expense creation and expense deletion. -/
inductive LedgerOp where
  | create (title category : String) (amount : ℚ)
  | delete (id : Nat)

/-- Remove the first expense record carrying the given id, returning its
amount together with the remaining records; `none` when no record has the
id (the NotFound case). -/
def removeById : List (Nat × ℚ) → Nat → Option (ℚ × List (Nat × ℚ))
  | [], _ => none
  | (j, a) :: rest, i =>
    if j = i then
      some (a, rest)
    else
      match removeById rest i with
      | some (b, rest2) => some (b, (j, a) :: rest2)
      | none => none

/-- Modelled from the spec: apply one committed ledger operation.
`createExpense` validates `amount > 0` and a non-empty category, persists the
record and triggers the Budget Tracker increment; `deleteExpense` removes the
owned record and triggers the decrement by the deleted amount.  A failing
operation (ValidationError / NotFound) commits nothing and leaves the state
unchanged. -/
def applyOp (s : UserState) (op : LedgerOp) : UserState :=
  match op with
  | .create _ category amount =>
    if 0 < amount ∧ category ≠ "" then
      { expenses := (s.nextId, amount) :: s.expenses
        total_spent := s.total_spent + amount
        nextId := s.nextId + 1 }
    else
      s
  | .delete i =>
    match removeById s.expenses i with
    | some (a, rest) => { s with expenses := rest, total_spent := s.total_spent - a }
    | none => s

/-- Run a sequence of ledger operations from a starting state. -/
def runOps (s : UserState) (ops : List LedgerOp) : UserState :=
  ops.foldl applyOp s

lemma sumAmounts_cons (p : Nat × ℚ) (l : List (Nat × ℚ)) :
    sumAmounts (p :: l) = p.2 + sumAmounts l := by
  simp [sumAmounts]

lemma removeById_sum {l : List (Nat × ℚ)} {i : Nat} {a : ℚ} {rest : List (Nat × ℚ)}
    (h : removeById l i = some (a, rest)) :
    sumAmounts l = a + sumAmounts rest := by
  induction l generalizing rest with
  | nil => simp [removeById] at h
  | cons p tl ih =>
    by_cases hji : p.1 = i
    · simp [removeById, hji] at h
      obtain ⟨ha, hrest⟩ := h
      subst ha hrest
      simp [sumAmounts_cons]
    · rw [show p = (p.1, p.2) from rfl] at h
      simp only [removeById, hji, if_neg] at h
      cases hrec : removeById tl i with
      | none => rw [hrec] at h; simp at h
      | some q =>
        obtain ⟨b, rest2⟩ := q
        rw [hrec] at h
        simp at h
        obtain ⟨ha, hrest⟩ := h
        subst hrest
        subst ha
        have hs := ih hrec
        rw [sumAmounts_cons, sumAmounts_cons, hs]
        ring

/-- The Budget Tracker invariant: the cached total equals the sum of the
remaining expense amounts. -/
def Consistent (s : UserState) : Prop :=
  s.total_spent = sumAmounts s.expenses

lemma applyOp_consistent {s : UserState} (h : Consistent s) (op : LedgerOp) :
    Consistent (applyOp s op) := by
  cases op with
  | create title category amount =>
    by_cases hv : 0 < amount ∧ category ≠ ""
    · simp [applyOp, hv, Consistent, sumAmounts_cons] at *
      rw [h]; ring
    · simpa [applyOp, hv] using h
  | delete i =>
    cases hrem : removeById s.expenses i with
    | none => simpa [applyOp, hrem] using h
    | some q =>
      obtain ⟨a, rest⟩ := q
      have hsum := removeById_sum hrem
      simp [applyOp, hrem, Consistent] at *
      rw [h, hsum]; ring

lemma runOps_consistent {s : UserState} (h : Consistent s) (ops : List LedgerOp) :
    Consistent (runOps s ops) := by
  induction ops generalizing s with
  | nil => simpa [runOps] using h
  | cons op tl ih =>
    simpa [runOps] using ih (applyOp_consistent h op)

/-! ### Aggregation Engine (modelled from the spec) -/

/-- Modelled from the spec: an Expense record as seen by the Aggregation
Engine (backend `routes/summary.py` is not in the tree) — its title, free-form
category label, amount, and the `(year, month)` of `created_at` flattened to a
single month index `year * 12 + month`. -/
structure Expense where
  title : String
  category : String
  amount : ℚ
  month : Int

/-- Sum of the amounts of a list of Expense records. -/
def expSum (es : List Expense) : ℚ :=
  (es.map Expense.amount).sum

/-- Modelled from the spec: the category breakdown — group the expenses by
category and sum the amounts per group (one entry per distinct category). -/
def categoryTotals (es : List Expense) : List (String × ℚ) :=
  ((es.map Expense.category).dedup).map
    fun c => (c, expSum (es.filter fun e => e.category = c))

/-- Modelled from the spec: the N-trailing-months trend ending at current
month index `m0` — one entry per month of the window in chronological
ascending order, a month with no expenses contributing 0. -/
def monthlyTrend (n : Nat) (m0 : Int) (es : List Expense) : List (Int × ℚ) :=
  (List.range n).map fun (i : Nat) =>
    (m0 - ((n : Int) - 1) + (i : Int),
      expSum (es.filter fun e => e.month = m0 - ((n : Int) - 1) + (i : Int)))

lemma expSum_cons (e : Expense) (es : List Expense) :
    expSum (e :: es) = e.amount + expSum es := by
  simp [expSum]

lemma expSum_filter_split (p : Expense → Bool) (es : List Expense) :
    expSum (es.filter p) + expSum (es.filter fun e => !p e) = expSum es := by
  induction es with
  | nil => simp [expSum]
  | cons e tl ih =>
    cases hp : p e <;>
      simp [List.filter_cons, hp, expSum_cons, ← ih] <;> ring

lemma filter_cat_of_ne {c c2 : String} (hne : c2 ≠ c) (es : List Expense) :
    es.filter (fun e => e.category = c2) =
      (es.filter fun e => !(decide (e.category = c))).filter
        (fun e => e.category = c2) := by
  induction es with
  | nil => rfl
  | cons e tl ih =>
    by_cases h2 : e.category = c2
    · have hc : e.category ≠ c := by rw [h2]; exact hne
      simp [List.filter_cons, h2, hc, hne, ih]
    · by_cases hc : e.category = c <;>
        simp [List.filter_cons, h2, hc, hne, Ne.symm hne, ih]

lemma grouped_sum_of_keys (keys : List String) (es : List Expense)
    (hnd : keys.Nodup) (hcov : ∀ e ∈ es, e.category ∈ keys) :
    ((keys.map fun c => expSum (es.filter fun e => e.category = c)).sum) =
      expSum es := by
  induction keys generalizing es with
  | nil =>
    have : es = [] := by
      cases es with
      | nil => rfl
      | cons e tl => exact absurd (hcov e (by simp)) (by simp)
    subst this
    simp [expSum]
  | cons c cs ih =>
    have hnd2 : cs.Nodup := hnd.of_cons
    have hcne : ∀ c2 ∈ cs, c2 ≠ c := by
      intro c2 hc2
      intro hEq
      subst hEq
      exact (List.nodup_cons.mp hnd).1 hc2
    have hmap :
        (cs.map fun c2 => expSum (es.filter fun e => e.category = c2)) =
          (cs.map fun c2 =>
            expSum ((es.filter fun e => !(decide (e.category = c))).filter
              fun e => e.category = c2)) := by
      apply List.map_congr_left
      intro c2 hc2
      rw [← filter_cat_of_ne (hcne c2 hc2)]
    have hcov2 : ∀ e ∈ es.filter fun e => !(decide (e.category = c)),
        e.category ∈ cs := by
      intro e he
      have hmem := List.mem_of_mem_filter he
      have hprop := List.of_mem_filter he
      have hnec : e.category ≠ c := by simpa using hprop
      have := hcov e hmem
      simp at this
      rcases this with h | h
      · exact absurd h hnec
      · exact h
    calc ((c :: cs).map fun c2 => expSum (es.filter fun e => e.category = c2)).sum
        = expSum (es.filter fun e => e.category = c) +
          (cs.map fun c2 => expSum (es.filter fun e => e.category = c2)).sum := by
          simp
      _ = expSum (es.filter fun e => e.category = c) +
          expSum (es.filter fun e => !(decide (e.category = c))) := by
          rw [hmap, ih _ hnd2 hcov2]
      _ = expSum es := by
          have := expSum_filter_split (fun e => decide (e.category = c)) es
          simpa using this

lemma categoryTotals_sum (es : List Expense) :
    ((categoryTotals es).map Prod.snd).sum = expSum es := by
  have h := grouped_sum_of_keys ((es.map Expense.category).dedup) es
    (List.nodup_dedup _)
    (by intro e he; rw [List.mem_dedup]; exact List.mem_map_of_mem _ he)
  simpa [categoryTotals, Function.comp] using h

/-! ### Frontend: Dashboard computations
(frontend/src/pages/Dashboard.tsx and DashboardMock.tsx) -/

/-- JavaScript division scaled to a percentage, as in
`(value / summary.total_spent) * 100` (Dashboard.tsx line 66,
DashboardMock.tsx line 107).  A zero total makes the JS float division
produce Infinity (or NaN for 0/0); the non-finite outcome is modelled as
`none`. -/
def jsPct (value total : ℚ) : Option ℚ :=
  if total = 0 then none else some (value / total * 100)

/-- From Dashboard.tsx lines 63-67 (identically DashboardMock.tsx lines
104-108): `categoryData` maps each `(name, value)` entry of
`summary.categories` to `{name, value, percentage}` with
`percentage = (value / total_spent) * 100`. -/
def categoryData (total : ℚ) (cats : List (String × ℚ)) :
    List (String × ℚ × Option ℚ) :=
  cats.map fun p => (p.1, p.2, jsPct p.2 total)

/-- From DashboardMock.tsx lines 27-42: the `categories` object of
`mockSummary`. -/
def mockCategories : List (String × ℚ) :=
  [("Food & Dining", 45023 / 100),
   ("Transportation", 23456 / 100),
   ("Shopping", 17890 / 100),
   ("Entertainment", 15645 / 100),
   ("Bills & Utilities", 23664 / 100)]

/-- From DashboardMock.tsx line 28: `mockSummary.total_spent`. -/
def mockTotalSpent : ℚ := 125678 / 100

/-- From Dashboard.tsx line 77 (DashboardMock.tsx line 118):
`budgetRemaining = user?.budget ? user.budget - (summary?.total_spent || 0) : 0`.
The JS condition `user?.budget` is truthy exactly when the budget field is
present and its number is nonzero. -/
def budgetRemaining (budget : Option ℚ) (total : ℚ) : ℚ :=
  match budget with
  | some b => if b = 0 then 0 else b - total
  | none => 0

/-- From Dashboard.tsx line 76 (DashboardMock.tsx line 117):
`budgetUsed = summary && user?.budget ? (summary.total_spent / user.budget) * 100 : 0`. -/
def budgetUsed (budget : Option ℚ) (total : ℚ) : ℚ :=
  match budget with
  | some b => if b = 0 then 0 else total / b * 100
  | none => 0

/-- The over-budget determination the Budget Status card renders
(Dashboard.tsx lines 139-144): the budget is exceeded exactly when the
remaining amount shown is negative. -/
def isOverBudget (budget : Option ℚ) (total : ℚ) : Bool :=
  decide (budgetRemaining budget total < 0)

/-- From Dashboard.tsx line 155 (DashboardMock.tsx line 204): the Avg per Day
card shows `summary?.total_spent ? (summary.total_spent / 30).toFixed(2) : '0.00'`;
the numeric value behind the rendered string.  `none` models an absent
summary; a zero (falsy) total takes the `'0.00'` branch. -/
def avgPerDay (total : Option ℚ) : ℚ :=
  match total with
  | some t => if t = 0 then 0 else t / 30
  | none => 0

/-- A fetched expense row as the frontend type (frontend/src/types/index.ts
`Expense`), restricted to the fields the Recent Expenses card reads. -/
structure FExpense where
  id : String
  amount : ℚ
  description : String
  category : String

/-- From Dashboard.tsx line 46: `setRecentExpenses(expensesData.slice(0, 5))` —
the recent-expenses section holds the first five fetched records. -/
def recentExpenses (es : List FExpense) : List FExpense :=
  es.take 5

/-! ### Frontend: axios interceptors (frontend/src/utils/api.ts) -/

/-- The browser `localStorage` entries the api client touches, plus the
remaining entries for frame reasoning. -/
structure AuthStore where
  token : Option String
  user : Option String
  extra : List (String × String)

/-- From api.ts lines 29-40: the response interceptor error handler.  Given
the HTTP status of the failed response (`none` when there is no response) and
the current localStorage, it returns the updated store, the redirect target
set via `window.location.href` (if any), and whether the promise rejects.
On status 401 it removes `token` and `user` and redirects to `/login`; in
every case it returns `Promise.reject(error)`. -/
def onResponseError (status : Option Nat) (st : AuthStore) :
    AuthStore × Option String × Bool :=
  if status = some 401 then
    ({ token := none, user := none, extra := st.extra }, some "/login", true)
  else
    (st, none, true)

/-- The request configuration fields relevant to the request interceptor:
the `Authorization` header plus the untouched rest of the config. -/
structure ReqConfig where
  authorization : Option String
  contentType : String
  url : String
  payload : String

/-- From api.ts lines 14-26: the request interceptor reads
`localStorage.getItem('token')` and, when the result is truthy (a non-null,
non-empty string), sets `config.headers.Authorization` to
`` `Bearer ${token}` ``; otherwise the config passes through unchanged. -/
def onRequest (stored : Option String) (cfg : ReqConfig) : ReqConfig :=
  match stored with
  | some t => if t = "" then cfg else { cfg with authorization := some ("Bearer " ++ t) }
  | none => cfg

/-! ### Chat Context Builder (modelled from the spec) -/

/-- Modelled from the spec: one conversation turn of the per-user bounded
chat history (backend `services/chat_agent.py` is not in the tree). -/
structure ChatTurn where
  role : String
  text : String

/-- Modelled from the spec: the per-user chat state — the ordered turn
sequence and the configured maximum history length. -/
structure ChatState where
  history : List ChatTurn
  maxLen : Nat

/-- Modelled from the spec: append a turn, discarding the oldest turns once
the configured maximum length is exceeded (fixed-size sliding window). -/
def addTurn (s : ChatState) (t : ChatTurn) : ChatState :=
  { s with history := (s.history ++ [t]).drop ((s.history.length + 1) - s.maxLen) }

/-- Modelled from the spec: `clearHistory` (DELETE /summary/chat) empties the
turn sequence for the user and always succeeds, also on an already-empty
history. -/
def clearHistory (s : ChatState) : Except String ChatState :=
  .ok { s with history := [] }

/-! ### Claims -/

/-- C1: for every user and every sequence of committed expense create/delete
operations, after each operation (equivalently, after every prefix, each of
which is itself such a sequence) the user total_spent equals the sum of the
amounts of the remaining Expense records; a newly registered user with no
expenses has total_spent equal to 0. -/
theorem c1_total_spent_invariant (ops : List LedgerOp) :
    (runOps newUser ops).total_spent = sumAmounts (runOps newUser ops).expenses ∧
      newUser.total_spent = 0 := by
  exact ⟨runOps_consistent (show Consistent newUser from rfl) ops, rfl⟩

/-- C2 (code evaluated at the failing input): with `total_spent = 0` and a
nonempty categories object, `categoryData` computes
`(value / total_spent) * 100` without any zero guard, so the percentage is the
non-finite JS value (modelled `none`), not 0 as the spec requires. -/
theorem c2_percentage_zero_total :
    categoryData 0 [("Food", 45023 / 100)] = [("Food", 45023 / 100, none)] ∧
      some (0 : ℚ) ≠ (none : Option ℚ) := by
  constructor
  · simp [categoryData, jsPct]
  · simp

/-- C3 counterexample: for a user whose budget is 0 (present, not null) and
total_spent 10, the claim says the user is over budget (budget not null and
total > budget), but the code treats a zero budget as falsy and reports not
over budget. -/
theorem c3_counterexample :
    ¬ (isOverBudget (some 0) 10 = true ↔
        ((some (0 : ℚ)).isSome = true ∧ (0 : ℚ) < 10)) := by
  decide

/-- C3 amended: the over-budget determination is true iff the budget field is
present AND nonzero (a budget of 0 is falsy in JS and is treated as no budget
set) and total_spent exceeds the budget; the computation is a pure function of
the budget and the total and mutates nothing. -/
theorem c3_over_budget (budget : Option ℚ) (total : ℚ) :
    isOverBudget budget total = true ↔
      ∃ b, budget = some b ∧ b ≠ 0 ∧ b < total := by
  cases budget with
  | none => simp [isOverBudget, budgetRemaining]
  | some b =>
    by_cases hb : b = 0
    · subst hb; simp [isOverBudget, budgetRemaining]
    · simp [isOverBudget, budgetRemaining, hb, sub_neg]

/-- C4: for every set of expenses the per-category sums of the category
breakdown add up to the total spent (exactly, in rational arithmetic); in
particular the mock dashboard summary category values add up to its
total_spent of 1256.78. -/
theorem c4_category_breakdown_sums (es : List Expense) :
    ((categoryTotals es).map Prod.snd).sum = expSum es ∧
      (mockCategories.map Prod.snd).sum = mockTotalSpent := by
  refine ⟨categoryTotals_sum es, ?_⟩
  norm_num [mockCategories, mockTotalSpent]

/-- C5: an N-month trend has exactly N entries; entry i is for month index
`m0 - (N - 1) + i`, so the months are consecutive and chronologically
ascending with no gaps; and an entry whose month has no expenses carries the
value 0. -/
theorem c5_monthly_trend (n i : Nat) (m0 : Int) (es : List Expense)
    (hi : i < (monthlyTrend n m0 es).length) :
    (monthlyTrend n m0 es).length = n ∧
      ((monthlyTrend n m0 es).get ⟨i, hi⟩).1 = m0 - ((n : Int) - 1) + i ∧
      ((∀ e ∈ es, e.month ≠ m0 - ((n : Int) - 1) + i) →
        ((monthlyTrend n m0 es).get ⟨i, hi⟩).2 = 0) := by
  have hget : (monthlyTrend n m0 es).get ⟨i, hi⟩ =
      (m0 - ((n : Int) - 1) + i,
        expSum (es.filter fun e => e.month = m0 - ((n : Int) - 1) + i)) := by
    simp only [List.get_eq_getElem, monthlyTrend, List.getElem_map, List.getElem_range]
  refine ⟨?_, ?_, ?_⟩
  · rw [monthlyTrend, List.length_map, List.length_range]
  · rw [hget]
  · intro hz
    have hfil : es.filter (fun e => e.month = m0 - ((n : Int) - 1) + i) = [] := by
      rw [List.filter_eq_nil_iff]
      intro e he
      simpa using hz e he
    rw [hget]
    simp [hfil, expSum]

/-- C5 witness: a concrete 6-month trend ending at month index 100, over a
single expense in month 99; the trend has 6 entries, entry 0 is month 95,
and that month (having no expenses) carries the value 0. -/
theorem c5_monthly_trend_witness :
    (monthlyTrend 6 100 [⟨"t", "Food", 5, 99⟩]).length = 6 ∧
      ((monthlyTrend 6 100 [⟨"t", "Food", 5, 99⟩]).get ⟨0, by decide⟩).1 = 95 ∧
      ((monthlyTrend 6 100 [⟨"t", "Food", 5, 99⟩]).get ⟨0, by decide⟩).2 = 0 := by
  have h := c5_monthly_trend 6 0 100 [⟨"t", "Food", 5, 99⟩] (by decide)
  refine ⟨h.1, ?_, h.2.2 (by decide)⟩
  rw [h.2.1]
  norm_num

/-- C6: the recent-expenses section of the dashboard is the pure truncation
of the fetched expense list — exactly the first `min 5 length` records, never
more than 5, each in its original position. -/
theorem c6_recent_expenses (es : List FExpense) (i : Nat)
    (hi : i < (recentExpenses es).length) :
    (recentExpenses es).length = min 5 es.length ∧
      (recentExpenses es).length ≤ 5 ∧
      (recentExpenses es).get ⟨i, hi⟩ =
        es.get ⟨i, lt_of_lt_of_le (by simpa [recentExpenses] using hi)
          (min_le_right 5 es.length)⟩ := by
  refine ⟨by simp [recentExpenses], ?_, ?_⟩
  · rw [recentExpenses, List.length_take]
    exact min_le_left _ _
  · simp [recentExpenses]

/-- C6 witness: with a single fetched expense, the recent section holds that
one record unchanged, and its length is `min 5 1 = 1`. -/
theorem c6_recent_expenses_witness :
    (recentExpenses [⟨"1", 45, "Lunch", "Food"⟩]).length = min 5 1 ∧
      (recentExpenses [⟨"1", 45, "Lunch", "Food"⟩]).length ≤ 5 ∧
      (recentExpenses [⟨"1", 45, "Lunch", "Food"⟩]).get ⟨0, by decide⟩ =
        ([⟨"1", 45, "Lunch", "Food"⟩] : List FExpense).get ⟨0, by decide⟩ :=
  c6_recent_expenses [⟨"1", 45, "Lunch", "Food"⟩] 0 (by decide)

/-- C7: clearHistory is idempotent — clearing an already-empty history
succeeds as a no-op, and for every chat state two successive clearHistory
calls both succeed and leave the history empty both times. -/
theorem c7_clear_history_idempotent (s : ChatState) (h : s.history = []) :
    clearHistory s = Except.ok s ∧
      ∀ t : ChatState, ∃ t1, clearHistory t = Except.ok t1 ∧ t1.history = [] ∧
        clearHistory t1 = Except.ok t1 ∧ t1.history = [] := by
  constructor
  · cases s with
    | mk hist m =>
      simp only at h
      subst h
      rfl
  · intro t
    exact ⟨{ t with history := [] }, rfl, rfl, rfl, rfl⟩

/-- C7 witness: clearing the empty history of a concrete chat state is a
no-op success, and two successive clears from any start leave it empty. -/
theorem c7_clear_history_witness :
    clearHistory ⟨[], 50⟩ = Except.ok ⟨[], 50⟩ :=
  (c7_clear_history_idempotent ⟨[], 50⟩ rfl).1

/-- C8: on a 401 response the interceptor removes the token and user entries
from localStorage (other entries untouched), redirects to /login, and the
promise rejects; on any other error status localStorage is unchanged, there
is no redirect, and the error propagates (the promise rejects). -/
theorem c8_response_interceptor (st : AuthStore) (s : Option Nat)
    (h : s ≠ some 401) :
    onResponseError (some 401) st =
        ({ token := none, user := none, extra := st.extra }, some "/login", true) ∧
      onResponseError s st = (st, none, true) := by
  constructor
  · rfl
  · simp [onResponseError, h]

/-- C8 witness: concrete stores — a 401 clears token and user and redirects
to /login; a 500 leaves the store unchanged and rejects. -/
theorem c8_response_interceptor_witness :
    onResponseError (some 401) ⟨some "tok", some "u", []⟩ =
        (⟨none, none, []⟩, some "/login", true) ∧
      onResponseError (some 500) ⟨some "tok", some "u", []⟩ =
        (⟨some "tok", some "u", []⟩, none, true) :=
  c8_response_interceptor ⟨some "tok", some "u", []⟩ (some 500) (by decide)

/-- C9: the Avg per Day value equals total_spent / 30 for every nonzero
total_spent, irrespective of elapsed days or month length, and is 0 when
total_spent is 0 or the summary is absent. -/
theorem c9_avg_per_day (t : ℚ) (h : t ≠ 0) :
    avgPerDay (some t) = t / 30 ∧ avgPerDay (some 0) = 0 ∧ avgPerDay none = 0 := by
  refine ⟨by simp [avgPerDay, h], by norm_num [avgPerDay], rfl⟩

/-- C9 witness: a summary with total_spent 90 shows 90 / 30 = 3 per day, a
zero total and an absent summary both show 0. -/
theorem c9_avg_per_day_witness :
    avgPerDay (some 90) = 90 / 30 ∧ avgPerDay (some 0) = 0 ∧ avgPerDay none = 0 :=
  c9_avg_per_day 90 (by norm_num)

/-- A concrete request configuration before the interceptor runs: no
Authorization header, the JSON content type set by `axios.create`, and a
sample url and body. -/
def sampleConfig : ReqConfig :=
  { authorization := none
    contentType := "application/json"
    url := "/expenses"
    payload := "" }

/-- C10 counterexample: with the empty string stored as the token (a stored
entry, hence "localStorage contains a token t" with t = ""), the claim says
the request carries Authorization "Bearer " — but the JS truthiness test
skips the falsy empty string and adds no header. -/
theorem c10_counterexample :
    (onRequest (some "") sampleConfig).authorization ≠ some ("Bearer " ++ "") := by
  simp [onRequest, sampleConfig]

/-- C10 amended: the request carries Authorization = "Bearer " ++ t exactly
when localStorage contains a NONEMPTY token t; with no stored token, or with
the empty string stored, the config passes through unchanged; in all cases
every other field of the config is left unmodified. -/
theorem c10_request_interceptor (cfg : ReqConfig) (t : String) (h : t ≠ "") :
    onRequest (some t) cfg = { cfg with authorization := some ("Bearer " ++ t) } ∧
      onRequest none cfg = cfg ∧ onRequest (some "") cfg = cfg := by
  refine ⟨by simp [onRequest, h], rfl, by simp [onRequest]⟩

/-- C10 witness: a concrete config with stored token "abc123" gains the
header "Bearer abc123" with all other fields intact; no token or an empty
token leaves the config unchanged. -/
theorem c10_request_interceptor_witness :
    onRequest (some "abc123") sampleConfig =
        ⟨some ("Bearer " ++ "abc123"), "application/json", "/expenses", ""⟩ ∧
      onRequest none sampleConfig = sampleConfig ∧
      onRequest (some "") sampleConfig = sampleConfig :=
  c10_request_interceptor sampleConfig "abc123" (by decide)

end ExpenseManager
